import Mathlib

/-!
Verification development for the emission estimation engine of the
greenfork backend (src/services/emissionService.js).

The JavaScript code is shallowly embedded: JavaScript numbers are modelled
as rationals, JavaScript objects used as string-keyed maps are modelled as
association lists in insertion order, and the external collaborators
(recipe lookup, geocoding, routing) are modelled as oracle functions passed
as parameters.  A lookup result of none models an undefined property.
The JavaScript truthiness conventions that the source relies on are
modelled explicitly: for numbers the value 0 is falsy, for strings the
empty string is falsy, and an absent value is falsy; see jsOrQ, jsOrStr,
jsOrOpt and jsTruthyNum below.  The two-decimal and one-decimal output
formatting done with toFixed is modelled by the rounding maps fix2 and
fix1, which return the rational value denoted by the formatted string.
An Option valued emission models the fact that multiplying a number by an
undefined lookup result yields NaN in JavaScript: none stands for NaN.
-/

/-- Association list lookup, modelling property access on a JavaScript
object literal with string keys. -/
def lookupStr {α : Type} : List (String × α) → String → Option α
  | [], _ => none
  | (k0, v) :: rest, key => if key = k0 then some v else lookupStr rest key

/-- Model of the JavaScript expression a || b for a possibly undefined
number a and a number b: the value 0 is falsy. -/
def jsOrQ (o : Option ℚ) (dflt : ℚ) : ℚ :=
  match o with
  | some v => if v = 0 then dflt else v
  | none => dflt

/-- Model of the JavaScript expression a || b for a possibly undefined
string a: the empty string is falsy. -/
def jsOrStr (o : Option String) (dflt : String) : String :=
  match o with
  | some v => if v = "" then dflt else v
  | none => dflt

/-- Model of the JavaScript expression a || b where both operands may be
undefined numbers; the result may itself be undefined. -/
def jsOrOpt (o : Option ℚ) (fallback : Option ℚ) : Option ℚ :=
  match o with
  | some v => if v = 0 then fallback else some v
  | none => fallback

/-- JavaScript truthiness of a possibly undefined number. -/
def jsTruthyNum (o : Option ℚ) : Bool :=
  match o with
  | some v => if v = 0 then false else true
  | none => false

/-- Model of String.prototype.toLowerCase for the ASCII strings used by
the engine. -/
def lowerStr (s : String) : String := String.mk (s.data.map Char.toLower)

/-- Drop leading and trailing whitespace from a character list. -/
def trimChars (cs : List Char) : List Char :=
  ((cs.dropWhile Char.isWhitespace).reverse.dropWhile Char.isWhitespace).reverse

/-- Model of String.prototype.trim. -/
def trimStr (s : String) : String := String.mk (trimChars s.data)

/-- Check that the first list is an initial segment of the second. -/
def leadsWith : List Char → List Char → Bool
  | [], _ => true
  | _ :: _, [] => false
  | p :: ps, c :: cs => p == c && leadsWith ps cs

/-- Check that pat occurs as a contiguous segment of the second list. -/
def containsSeq (pat : List Char) : List Char → Bool
  | [] => pat.isEmpty
  | c :: cs => leadsWith pat (c :: cs) || containsSeq pat cs

/-- Model of String.prototype.includes as used by the keyword
classifiers. -/
def jsIncludes (s pat : String) : Bool := containsSeq pat.data s.data

/-- Split a character list at every comma, modelling String.prototype.split
with separator a comma. -/
def splitOnComma : List Char → List (List Char)
  | [] => [[]]
  | c :: cs =>
    if c = ',' then [] :: splitOnComma cs
    else
      match splitOnComma cs with
      | [] => [[c]]
      | g :: gs => (c :: g) :: gs

/-- Numeric value of a digit string, modelling parseInt on the first
capture group of the order line pattern. -/
def natOfDigits (cs : List Char) : Nat :=
  cs.foldl (fun a c => a * 10 + (c.toNat - '0'.toNat)) 0

/-- Model of toFixed with two decimals: the rational value denoted by the
formatted string. -/
def fix2 (x : ℚ) : ℚ := (round (x * 100) : ℚ) / 100

/-- Model of toFixed with one decimal: the rational value denoted by the
formatted string. -/
def fix1 (x : ℚ) : ℚ := (round (x * 10) : ℚ) / 10

/-- Replace the value at a key, or append the binding, modelling a
JavaScript object property assignment. -/
def setKey : List (String × ℚ) → String → ℚ → List (String × ℚ)
  | [], k, v => [(k, v)]
  | (k0, v0) :: rest, k, v =>
    if k = k0 then (k0, v) :: rest else (k0, v0) :: setKey rest k v

/-- Add an amount at a key, or append the binding, modelling the
cumulative ingredient map update of the aggregator loop. -/
def addAmount : List (String × ℚ) → String → ℚ → List (String × ℚ)
  | [], k, v => [(k, v)]
  | (k0, v0) :: rest, k, v =>
    if k = k0 then (k0, v0 + v) :: rest else (k0, v0) :: addAmount rest k v

/-- Food emissions database, kg CO2e per kg, from FOOD_EMISSIONS_DB. -/
def FOOD_EMISSIONS_DB : List (String × ℚ) :=
  [ ("beef", 60.0), ("lamb", 24.0), ("mutton", 24.0), ("pork", 7.0)
  , ("bacon", 7.2), ("ham", 6.8), ("chicken", 6.0), ("turkey", 5.5)
  , ("duck", 9.8), ("eggs", 4.8)
  , ("fish", 5.1), ("salmon", 6.0), ("tuna", 6.1), ("shrimp", 12.0)
  , ("prawns", 12.0)
  , ("cheese", 13.5), ("paneer", 13.0), ("milk", 3.2), ("butter", 12.0)
  , ("cream", 9.0), ("yogurt", 2.5), ("ghee", 12.5), ("cream cheese", 11.8)
  , ("lentils", 0.9), ("tofu", 2.0), ("beans", 1.1), ("chickpeas", 0.9)
  , ("soybeans", 1.0), ("tempeh", 2.2), ("seitan", 1.2)
  , ("plant-based meat", 3.5)
  , ("wheat", 1.6), ("rice", 4.0), ("oats", 1.4), ("barley", 1.0)
  , ("corn", 1.1), ("quinoa", 1.3), ("bread", 1.7), ("pasta", 1.5)
  , ("flour", 1.6)
  , ("vegetables", 1.5), ("potatoes", 0.5), ("tomatoes", 1.1)
  , ("onions", 0.5), ("garlic", 0.6), ("bell pepper", 1.0)
  , ("tomato puree", 1.8), ("carrots", 0.4), ("broccoli", 0.6)
  , ("spinach", 0.5), ("lettuce", 0.7), ("kale", 0.5), ("cabbage", 0.4)
  , ("cucumber", 0.6), ("eggplant", 0.7), ("mushrooms", 0.6)
  , ("fruits", 1.0), ("apples", 0.4), ("bananas", 0.8), ("oranges", 0.4)
  , ("berries", 1.1), ("grapes", 1.0), ("mangoes", 1.2)
  , ("oil", 3.3), ("olive oil", 5.1), ("coconut oil", 2.3), ("nuts", 2.5)
  , ("almonds", 3.5), ("walnuts", 2.3), ("cashews", 2.2), ("seeds", 1.8)
  , ("spices", 1.5), ("sugar", 1.9), ("salt", 0.3), ("pepper", 1.1)
  , ("vinegar", 0.9), ("tomato ketchup", 2.1), ("mayonnaise", 4.5)
  , ("coffee", 17.0), ("tea", 2.0), ("beer", 1.1), ("wine", 1.8)
  , ("soft drink", 0.5) ]

/-- Ingredient name normalization table, from INGREDIENT_NORMALIZATION. -/
def INGREDIENT_NORMALIZATION : List (String × String) :=
  [ ("garbanzo beans", "chickpeas"), ("chana", "chickpeas")
  , ("chick peas", "chickpeas"), ("gram", "chickpeas")
  , ("dahl", "lentils"), ("dal", "lentils"), ("moong", "lentils")
  , ("masoor", "lentils")
  , ("gram flour", "flour"), ("besan", "flour"), ("maida", "flour")
  , ("atta", "flour"), ("naan", "bread"), ("chapati", "bread")
  , ("roti", "bread"), ("paratha", "bread")
  , ("chicken breast", "chicken"), ("chicken thigh", "chicken")
  , ("lamb chop", "lamb"), ("ground beef", "beef"), ("minced beef", "beef")
  , ("steak", "beef"), ("mutton", "lamb"), ("egg", "eggs")
  , ("capsicum", "bell pepper"), ("pepper", "bell pepper")
  , ("tomato", "tomatoes"), ("onion", "onions"), ("potato", "potatoes")
  , ("mushroom", "mushrooms"), ("eggplant", "eggplant")
  , ("aubergine", "eggplant"), ("brinjal", "eggplant")
  , ("cream cheese", "cheese"), ("cheddar", "cheese")
  , ("mozzarella", "cheese"), ("parmesan", "cheese"), ("feta", "cheese")
  , ("cottage cheese", "paneer"), ("creamer", "cream")
  , ("yoghurt", "yogurt"), ("curd", "yogurt")
  , ("refined oil", "oil"), ("cooking oil", "oil"), ("vegetable oil", "oil")
  , ("canola oil", "oil"), ("sunflower oil", "oil"), ("margarine", "butter")
  , ("ketchup", "tomato ketchup"), ("soy sauce", "spices")
  , ("hot sauce", "spices"), ("chilli sauce", "spices")
  , ("masala", "spices"), ("garam masala", "spices") ]

/-- Category fallback factors, from INGREDIENT_CATEGORY_FALLBACK. -/
structure CategoryFallback where
  meat : ℚ
  seafood : ℚ
  dairy : ℚ
  vegetables : ℚ
  fruits : ℚ
  grains : ℚ
  spices : ℚ
  pulses : ℚ
  oil : ℚ
  nuts : ℚ
  beverages : ℚ
  processed : ℚ

/-- The category fallback table of the source. -/
def INGREDIENT_CATEGORY_FALLBACK : CategoryFallback :=
  { meat := 30.0, seafood := 6.0, dairy := 10.0, vegetables := 1.0
  , fruits := 1.0, grains := 1.6, spices := 1.5, pulses := 0.9
  , oil := 3.3, nuts := 2.5, beverages := 1.5, processed := 4.0 }

/-- Packaging emissions per unit, by material and size, from
PACKAGING_EMISSIONS. -/
def PACKAGING_EMISSIONS : List (String × List (String × ℚ)) :=
  [ ("plastic", [("small", 0.1), ("medium", 0.2), ("large", 0.4)])
  , ("paper", [("small", 0.05), ("medium", 0.1), ("large", 0.2)])
  , ("aluminum", [("small", 0.15), ("medium", 0.3), ("large", 0.5)])
  , ("styrofoam", [("small", 0.15), ("medium", 0.25), ("large", 0.45)])
  , ("glass", [("small", 0.3), ("medium", 0.5), ("large", 0.8)]) ]

/-- Default packaging type and size, from DEFAULT_PACKAGING. -/
structure PackagingDefault where
  ptype : String
  psize : String

/-- The default packaging of the source: plastic, medium. -/
def DEFAULT_PACKAGING : PackagingDefault := { ptype := "plastic", psize := "medium" }

/-- Legacy flat packaging constant, kg CO2e per dish. -/
def PACKAGING_EMISSION_PER_DISH : ℚ := 0.2

/-- Travel emissions per km by transport mode, from TRAVEL_EMISSIONS. -/
def TRAVEL_EMISSIONS : List (String × ℚ) :=
  [ ("motorcycle", 0.115), ("scooter", 0.09), ("car", 0.18)
  , ("electric-car", 0.06), ("van", 0.23), ("bicycle", 0.008)
  , ("e-bicycle", 0.01), ("walking", 0.0) ]

/-- Default transport type of the source. -/
def DEFAULT_TRANSPORT : String := "motorcycle"

/-- Legacy flat travel constant, kg CO2e per km. -/
def TRAVEL_EMISSION_PER_KM : ℚ := 0.105

/-- Static recipe table, grams per standard serving, from RECIPE_DB. -/
def RECIPE_DB : List (String × List (String × ℚ)) :=
  [ ("kadhai paneer",
      [("paneer", 100), ("bell pepper", 50), ("onions", 50)
      , ("tomatoes", 100), ("oil", 10), ("spices", 5)])
  , ("tawa roti", [("wheat", 50), ("oil", 2)])
  , ("dal fry",
      [("lentils", 100), ("onions", 30), ("tomatoes", 50), ("oil", 10)
      , ("spices", 5)])
  , ("chicken curry",
      [("chicken", 150), ("onions", 50), ("tomatoes", 100), ("oil", 15)
      , ("spices", 8)])
  , ("chole kulche",
      [("chickpeas", 150), ("onions", 30), ("tomatoes", 50), ("oil", 10)
      , ("flour", 80), ("butter", 5), ("spices", 8)])
  , ("butter chicken",
      [("chicken", 200), ("butter", 30), ("cream", 50), ("tomatoes", 100)
      , ("onions", 30), ("spices", 10)])
  , ("palak paneer",
      [("paneer", 100), ("spinach", 200), ("onions", 30), ("tomatoes", 20)
      , ("cream", 20), ("oil", 10), ("spices", 5)])
  , ("biryani",
      [("rice", 150), ("chicken", 100), ("onions", 50), ("oil", 15)
      , ("spices", 10)])
  , ("naan", [("flour", 80), ("yogurt", 20), ("butter", 10)])
  , ("samosa",
      [("flour", 50), ("potatoes", 80), ("peas", 20), ("oil", 30)
      , ("spices", 5)]) ]

/-- Heuristic estimator of dish ingredients, from estimateDishIngredients:
keyword matches the dish name against dish families and returns a
hand-authored composition, with a generic vegetable curry as the terminal
default. -/
def estimateDishIngredients (dishName : String) : List (String × ℚ) :=
  let name := lowerStr dishName
  if jsIncludes name "chicken" || jsIncludes name "murgh" then
    [("chicken", 150), ("onions", 40), ("tomatoes", 60), ("oil", 15), ("spices", 10)]
  else if jsIncludes name "paneer" then
    [("paneer", 100), ("onions", 40), ("tomatoes", 60), ("oil", 10), ("spices", 8)]
  else if jsIncludes name "dal" || jsIncludes name "lentil" then
    [("lentils", 100), ("onions", 30), ("tomatoes", 40), ("oil", 10), ("spices", 5)]
  else if jsIncludes name "rice" || jsIncludes name "biryani" || jsIncludes name "pulao" then
    [("rice", 150), ("onions", 30), ("oil", 15), ("spices", 8)] ++
      (if jsIncludes name "chicken" || jsIncludes name "murgh" then [("chicken", 100)]
       else if jsIncludes name "mutton" || jsIncludes name "lamb" then [("lamb", 100)]
       else if jsIncludes name "veg" then [("vegetables", 100)]
       else [])
  else if jsIncludes name "roti" || jsIncludes name "naan" || jsIncludes name "bread" then
    [("flour", 80), ("oil", 5)]
  else
    [("vegetables", 150), ("onions", 40), ("tomatoes", 50), ("oil", 10), ("spices", 5)]

/-- Normalization of an ingredient name returned by the external lookup,
from the loop body of fetchIngredientsFromAPI. -/
def normalizeIngredientName (name : String) : String :=
  let lower := lowerStr name
  jsOrStr (lookupStr INGREDIENT_NORMALIZATION lower) lower

/-- Model of fetchIngredientsFromAPI.  The oracle api models the external
recipe lookup: none models any request error or an empty search result
(both paths fall back to the estimator), and some items models a
successful fetch of the ingredient list of the first recipe found. -/
def fetchIngredientsFromAPI (api : String → Option (List (String × ℚ)))
    (dishName : String) : List (String × ℚ) :=
  match api dishName with
  | none => estimateDishIngredients dishName
  | some items =>
      items.foldl (fun acc item => setKey acc (normalizeIngredientName item.1) item.2) []

/-- Dish ingredient resolution as performed inside calculateFoodEmission:
the static recipe table first, then the external lookup with its
fallbacks. -/
def resolveDishIngredients (api : String → Option (List (String × ℚ)))
    (dishName : String) : List (String × ℚ) :=
  match lookupStr RECIPE_DB dishName with
  | some recipe => recipe
  | none => fetchIngredientsFromAPI api dishName

/-- Keyword category classifier, from estimateEmissionCategory. -/
def estimateEmissionCategory (ingredient : String) : ℚ :=
  let lower := lowerStr ingredient
  if jsIncludes lower "meat" || jsIncludes lower "beef" || jsIncludes lower "lamb"
      || jsIncludes lower "pork" || jsIncludes lower "veal" then
    INGREDIENT_CATEGORY_FALLBACK.meat
  else if jsIncludes lower "fish" || jsIncludes lower "prawn" || jsIncludes lower "shrimp"
      || jsIncludes lower "salmon" || jsIncludes lower "seafood" then
    INGREDIENT_CATEGORY_FALLBACK.seafood
  else if jsIncludes lower "milk" || jsIncludes lower "cream" || jsIncludes lower "cheese"
      || jsIncludes lower "curd" || jsIncludes lower "yogurt" || jsIncludes lower "butter"
      || jsIncludes lower "ghee" then
    INGREDIENT_CATEGORY_FALLBACK.dairy
  else if jsIncludes lower "flour" || jsIncludes lower "bread" || jsIncludes lower "roti"
      || jsIncludes lower "naan" || jsIncludes lower "rice" || jsIncludes lower "cereal"
      || jsIncludes lower "grain" || jsIncludes lower "pasta" then
    INGREDIENT_CATEGORY_FALLBACK.grains
  else if jsIncludes lower "chickpeas" || jsIncludes lower "lentils" || jsIncludes lower "dal"
      || jsIncludes lower "beans" || jsIncludes lower "peas" then
    INGREDIENT_CATEGORY_FALLBACK.pulses
  else if jsIncludes lower "oil" || jsIncludes lower "fat" || jsIncludes lower "ghee" then
    INGREDIENT_CATEGORY_FALLBACK.oil
  else if jsIncludes lower "spice" || jsIncludes lower "masala" || jsIncludes lower "powder"
      || jsIncludes lower "sauce" || jsIncludes lower "paste" || jsIncludes lower "extract" then
    INGREDIENT_CATEGORY_FALLBACK.spices
  else if jsIncludes lower "nut" || jsIncludes lower "almond" || jsIncludes lower "cashew"
      || jsIncludes lower "seed" then
    INGREDIENT_CATEGORY_FALLBACK.nuts
  else if jsIncludes lower "drink" || jsIncludes lower "juice" || jsIncludes lower "tea"
      || jsIncludes lower "coffee" then
    INGREDIENT_CATEGORY_FALLBACK.beverages
  else if jsIncludes lower "processed" || jsIncludes lower "frozen" || jsIncludes lower "ready"
      || jsIncludes lower "instant" then
    INGREDIENT_CATEGORY_FALLBACK.processed
  else
    INGREDIENT_CATEGORY_FALLBACK.vegetables

/-- First match wins evaluation of an ordered list of predicate and
factor pairs, with a terminal default. -/
def firstMatchD : List ((String → Bool) × ℚ) → String → ℚ → ℚ
  | [], _, dflt => dflt
  | (p, v) :: rest, name, dflt => if p name then v else firstMatchD rest name dflt

/-- The ordered predicate list of the category classifier, in source
order: meat, seafood, dairy, grains, pulses, oil, spices, nuts,
beverages, processed. -/
def categoryRules : List ((String → Bool) × ℚ) :=
  [ (fun lower => jsIncludes lower "meat" || jsIncludes lower "beef" || jsIncludes lower "lamb"
      || jsIncludes lower "pork" || jsIncludes lower "veal", INGREDIENT_CATEGORY_FALLBACK.meat)
  , (fun lower => jsIncludes lower "fish" || jsIncludes lower "prawn" || jsIncludes lower "shrimp"
      || jsIncludes lower "salmon" || jsIncludes lower "seafood", INGREDIENT_CATEGORY_FALLBACK.seafood)
  , (fun lower => jsIncludes lower "milk" || jsIncludes lower "cream" || jsIncludes lower "cheese"
      || jsIncludes lower "curd" || jsIncludes lower "yogurt" || jsIncludes lower "butter"
      || jsIncludes lower "ghee", INGREDIENT_CATEGORY_FALLBACK.dairy)
  , (fun lower => jsIncludes lower "flour" || jsIncludes lower "bread" || jsIncludes lower "roti"
      || jsIncludes lower "naan" || jsIncludes lower "rice" || jsIncludes lower "cereal"
      || jsIncludes lower "grain" || jsIncludes lower "pasta", INGREDIENT_CATEGORY_FALLBACK.grains)
  , (fun lower => jsIncludes lower "chickpeas" || jsIncludes lower "lentils" || jsIncludes lower "dal"
      || jsIncludes lower "beans" || jsIncludes lower "peas", INGREDIENT_CATEGORY_FALLBACK.pulses)
  , (fun lower => jsIncludes lower "oil" || jsIncludes lower "fat" || jsIncludes lower "ghee",
      INGREDIENT_CATEGORY_FALLBACK.oil)
  , (fun lower => jsIncludes lower "spice" || jsIncludes lower "masala" || jsIncludes lower "powder"
      || jsIncludes lower "sauce" || jsIncludes lower "paste" || jsIncludes lower "extract",
      INGREDIENT_CATEGORY_FALLBACK.spices)
  , (fun lower => jsIncludes lower "nut" || jsIncludes lower "almond" || jsIncludes lower "cashew"
      || jsIncludes lower "seed", INGREDIENT_CATEGORY_FALLBACK.nuts)
  , (fun lower => jsIncludes lower "drink" || jsIncludes lower "juice" || jsIncludes lower "tea"
      || jsIncludes lower "coffee", INGREDIENT_CATEGORY_FALLBACK.beverages)
  , (fun lower => jsIncludes lower "processed" || jsIncludes lower "frozen" || jsIncludes lower "ready"
      || jsIncludes lower "instant", INGREDIENT_CATEGORY_FALLBACK.processed) ]

/-- Emission factor resolution for one ingredient, from the expression
FOOD_EMISSIONS_DB[ingredient] with the category classifier as the falsy
fallback. -/
def emissionFactorOfIngredient (ingredient : String) : ℚ :=
  jsOrQ (lookupStr FOOD_EMISSIONS_DB ingredient) (estimateEmissionCategory ingredient)

/-- Model of computeEmissionFromIngredients: the default 1.5 for an empty
map, else the sum of factor times kilograms over the entries. -/
def computeEmissionFromIngredients (ingredients : List (String × ℚ)) : ℚ :=
  if ingredients.isEmpty then 1.5
  else (ingredients.map (fun p => emissionFactorOfIngredient p.1 * (p.2 / 1000))).sum

/-- Geographic coordinates. -/
structure Coords where
  lat : ℚ
  lng : ℚ

/-- Model of getCoordinatesFromAddress.  The oracle geocode models the
external geocoding service: none models both an empty feature list and a
request error, since the source returns null in both cases. -/
def getCoordinatesFromAddress (geocode : String → Option Coords)
    (address : String) : Option Coords :=
  if trimStr address = "" then none else geocode address

/-- Routing profile selection of getTravelDistanceKm. -/
def routeProfile (transportType : String) : String :=
  if transportType = "bicycle" ∨ transportType = "e-bicycle" then "cycling-regular"
  else "driving-car"

/-- The emission factor expression of getTravelDistanceKm: the table
entry of the requested type with the default type entry as the falsy
fallback. -/
def travelFactorJs (transportType : String) : Option ℚ :=
  jsOrOpt (lookupStr TRAVEL_EMISSIONS transportType)
    (lookupStr TRAVEL_EMISSIONS DEFAULT_TRANSPORT)

/-- Result shape of getTravelDistanceKm. -/
structure TravelResult where
  distance : ℚ
  transportType : String
  emissionFactor : Option ℚ

/-- The fallback result of getTravelDistanceKm: five kilometers with the
resolved emission factor. -/
def travelFallback (transportType : String) : TravelResult :=
  { distance := 5, transportType := transportType
  , emissionFactor := travelFactorJs transportType }

/-- Model of getTravelDistanceKm.  The oracle route models the external
routing service and returns the route distance in meters, none modelling
any routing failure. -/
def getTravelDistanceKm (geocode : String → Option Coords)
    (route : Coords → Coords → String → Option ℚ)
    (originAddress : Option String) (destCoords : Option Coords)
    (transportType : String) : TravelResult :=
  match originAddress, destCoords with
  | some addr, some dest =>
    if addr = "" then travelFallback transportType
    else
      match getCoordinatesFromAddress geocode addr with
      | none => travelFallback transportType
      | some originCoords =>
        match route originCoords dest (routeProfile transportType) with
        | none => travelFallback transportType
        | some meters =>
          { distance := meters / 1000, transportType := transportType
          , emissionFactor := travelFactorJs transportType }
  | _, _ => travelFallback transportType

/-- Model of calculatePackagingEmissions: validate type and size against
the packaging table, then unit factor times dish count plus the fixed
additional emission. -/
def calculatePackagingEmissions (numberOfDishes : Nat)
    (packagingType packagingSize : String) : ℚ :=
  let ptype :=
    if (lookupStr PACKAGING_EMISSIONS packagingType).isSome then packagingType
    else DEFAULT_PACKAGING.ptype
  let sizes := (lookupStr PACKAGING_EMISSIONS ptype).getD []
  let size :=
    if jsTruthyNum (lookupStr sizes packagingSize) then packagingSize
    else DEFAULT_PACKAGING.psize
  let emissionFactor := (lookupStr sizes size).getD 0
  emissionFactor * numberOfDishes + 0.05

/-- Packaging emission as computed by the aggregator: the detailed
calculation with size escalation when the type is a truthy key of the
packaging table, else the legacy flat constant per dish. -/
def packagingEmissionOf (dishCount : Nat) (packagingType : String) : ℚ :=
  if packagingType ≠ "" ∧ (lookupStr PACKAGING_EMISSIONS packagingType).isSome = true then
    calculatePackagingEmissions dishCount packagingType
      (if 2 < dishCount then "large" else "medium")
  else PACKAGING_EMISSION_PER_DISH * dishCount

/-- Modelled from the claim text of C8, for comparison with the code:
the resolved type is the given type if present in the packaging table and
otherwise the default type, the size is large exactly when the dish count
exceeds two, and the emission is the unit factor times the dish count
plus the fixed overhead of 0.05. -/
def claimPackagingFormula (dishCount : Nat) (packagingType : String) : ℚ :=
  let ptype :=
    if (lookupStr PACKAGING_EMISSIONS packagingType).isSome then packagingType
    else DEFAULT_PACKAGING.ptype
  let size := if 2 < dishCount then "large" else "medium"
  ((lookupStr ((lookupStr PACKAGING_EMISSIONS ptype).getD []) size).getD 0) * dishCount + 0.05

/-- Match the order line pattern, a digit run followed by the literal
separator of one space, the letter x and one space, followed by at least
one character, anywhere in the clause.  Returns the digit run and the
remainder captured by the trailing group.  The digit run is always
maximal, because the character after it must be a space. -/
def findNumX : List Char → Option (List Char × List Char)
  | [] => none
  | c :: cs =>
    if c.isDigit then
      let ds := List.takeWhile Char.isDigit (c :: cs)
      let rest := List.dropWhile Char.isDigit (c :: cs)
      if leadsWith [' ', 'x', ' '] rest then
        let dishPart := List.takeWhile (fun ch => ch != '\n') (rest.drop 3)
        if dishPart.isEmpty then findNumX cs else some (ds, dishPart)
      else findNumX cs
    else findNumX cs

/-- Parse one comma-separated clause into an order line, modelling the
regular expression match of the aggregator; none models a skipped
malformed clause. -/
def parseClause (clause : String) : Option (Nat × String) :=
  (findNumX clause.data).map (fun m => (natOfDigits m.1, trimStr (String.mk m.2)))

/-- Parse a list of clauses, keeping the valid order lines in order. -/
def parseLines (clauses : List String) : List (Nat × String) :=
  clauses.filterMap parseClause

/-- Dish string parsing of the aggregator: lower case, split at commas,
trim each clause, and keep the clauses matching the order line pattern. -/
def parseDishes (dishString : String) : List (Nat × String) :=
  parseLines ((splitOnComma (lowerStr dishString).data).map (fun cs => trimStr (String.mk cs)))

/-- Travel input of the aggregator: a bare number of kilometers or a
structured object with a distance, an optional transport type and an
optional emission factor. -/
inductive TravelInput where
  | num (d : ℚ)
  | obj (distance : ℚ) (transportType : Option String) (emissionFactor : Option ℚ)

/-- Intermediate travel values of the aggregator: distance, transport
type and emission.  The emission is none when the JavaScript computation
produces NaN, which happens when a structured input carries no usable
factor and its transport type is not in the travel table. -/
structure TravelCalc where
  travelDistance : ℚ
  transportType : String
  travelEmission : Option ℚ

/-- Travel processing of the main path of calculateFoodEmission: a
structured input with a truthy distance uses its own factor or the table
factor of its transport type, a bare number uses the legacy flat constant
per km, and a structured input with distance zero contributes nothing. -/
def travelStage : TravelInput → TravelCalc
  | .obj d t ef =>
    if d ≠ 0 then
      { travelDistance := d
      , transportType := jsOrStr t DEFAULT_TRANSPORT
      , travelEmission :=
          (jsOrOpt ef (lookupStr TRAVEL_EMISSIONS (jsOrStr t DEFAULT_TRANSPORT))).map
            (fun f => d * f) }
    else
      { travelDistance := 0, transportType := DEFAULT_TRANSPORT, travelEmission := some 0 }
  | .num d =>
    { travelDistance := d, transportType := DEFAULT_TRANSPORT
    , travelEmission := some (d * TRAVEL_EMISSION_PER_KM) }

/-- Travel processing of the empty dish early return of
calculateFoodEmission.  It differs from the main path in the bare number
case only: there the factor is the travel table entry of the default
transport type, not the legacy flat constant. -/
def travelStageEmptyDish : TravelInput → TravelCalc
  | .num d =>
    { travelDistance := d, transportType := DEFAULT_TRANSPORT
    , travelEmission := (lookupStr TRAVEL_EMISSIONS DEFAULT_TRANSPORT).map (fun f => d * f) }
  | t => travelStage t

/-- Per dish entry of the detailed result. -/
structure DishDetail where
  name : String
  count : Nat
  emission : ℚ
  totalEmission : ℚ
  ingredients : List (String × ℚ)

/-- Per ingredient entry of the detailed result, all three fields being
the values denoted by the formatted output strings. -/
structure IngredientDetail where
  amount : ℚ
  emission : ℚ
  percentage : ℚ

/-- The details object of the result.  The early return of the source
builds a details object without the dishCount and packagingType
properties, modelled by none. -/
structure OrderDetails where
  dishes : List DishDetail
  ingredients : List (String × IngredientDetail)
  dishCount : Option Nat
  packagingType : Option String

/-- The result of calculateFoodEmission.  Numeric fields hold the values
denoted by the formatted strings of the source; travel and total are
none when the JavaScript values are NaN. -/
structure EmissionResult where
  food : ℚ
  packaging : ℚ
  travel : Option ℚ
  travelDistance : ℚ
  transportType : String
  total : Option ℚ
  details : OrderDetails

/-- Accumulator of the dish loop of the aggregator. -/
structure LoopState where
  food : ℚ
  count : Nat
  all : List (String × ℚ)
  dishes : List DishDetail

/-- Merge the ingredient map of one dish, scaled by its count, into the
cumulative ingredient map. -/
def mergeIngredients (all ingredients : List (String × ℚ)) (count : Nat) :
    List (String × ℚ) :=
  ingredients.foldl (fun acc p => addAmount acc p.1 (p.2 * count)) all

/-- One iteration of the dish loop of calculateFoodEmission. -/
def dishStep (api : String → Option (List (String × ℚ))) (st : LoopState)
    (line : Nat × String) : LoopState :=
  let count := line.1
  let dishName := line.2
  let ingredients := resolveDishIngredients api dishName
  let emission := computeEmissionFromIngredients ingredients
  { food := st.food + emission * count
  , count := st.count + count
  , all := mergeIngredients st.all ingredients count
  , dishes := st.dishes ++
      [{ name := dishName, count := count, emission := fix2 emission
       , totalEmission := fix2 (emission * count), ingredients := ingredients }] }

/-- The dish loop of calculateFoodEmission over the parsed order lines. -/
def dishLoop (api : String → Option (List (String × ℚ)))
    (items : List (Nat × String)) : LoopState :=
  items.foldl (dishStep api) { food := 0, count := 0, all := [], dishes := [] }

/-- Loop outcome for a dish string. -/
def loopStateOf (api : String → Option (List (String × ℚ)))
    (dishString : String) : LoopState :=
  dishLoop api (parseDishes dishString)

/-- Full precision emission of one aggregated ingredient entry, from the
second pass of the aggregator. -/
def ingredientEmissionOf (ingredient : String) (amount : ℚ) : ℚ :=
  emissionFactorOfIngredient ingredient * (amount / 1000)

/-- Full precision emissions of all aggregated entries. -/
def emissionsOf (m : List (String × ℚ)) : List ℚ :=
  m.map (fun p => ingredientEmissionOf p.1 p.2)

/-- The full precision total the aggregator divides by for percentages. -/
def totalIngredientEmission (m : List (String × ℚ)) : ℚ := (emissionsOf m).sum

/-- Percentage of one ingredient: the emission reread from its two
decimal formatted string, divided by the full precision total, times one
hundred, formatted to one decimal; zero when the total is not positive. -/
def percentageOf (total e : ℚ) : ℚ :=
  if 0 < total then fix1 (fix2 e / total * 100) else 0

/-- The per ingredient breakdown of the result. -/
def ingredientBreakdownOf (m : List (String × ℚ)) : List (String × IngredientDetail) :=
  m.map (fun p =>
    (p.1
    , { amount := fix1 p.2
      , emission := fix2 (ingredientEmissionOf p.1 p.2)
      , percentage := percentageOf (totalIngredientEmission m) (ingredientEmissionOf p.1 p.2) }))

/-- The early return of calculateFoodEmission for a falsy dish string. -/
def emptyDishResult (travelDetails : TravelInput) : EmissionResult :=
  { food := 0, packaging := 0
  , travel := (travelStageEmptyDish travelDetails).travelEmission.map fix2
  , travelDistance := fix2 (travelStageEmptyDish travelDetails).travelDistance
  , transportType := (travelStageEmptyDish travelDetails).transportType
  , total := (travelStageEmptyDish travelDetails).travelEmission.map fix2
  , details := { dishes := [], ingredients := [], dishCount := none, packagingType := none } }

/-- The main path of calculateFoodEmission. -/
def mainResult (api : String → Option (List (String × ℚ))) (dishString : String)
    (travelDetails : TravelInput) (packagingType : String) : EmissionResult :=
  { food := fix2 (loopStateOf api dishString).food
  , packaging := fix2 (packagingEmissionOf (loopStateOf api dishString).count packagingType)
  , travel := (travelStage travelDetails).travelEmission.map fix2
  , travelDistance := fix2 (travelStage travelDetails).travelDistance
  , transportType := (travelStage travelDetails).transportType
  , total := (travelStage travelDetails).travelEmission.map
      (fun te => fix2 ((loopStateOf api dishString).food
        + packagingEmissionOf (loopStateOf api dishString).count packagingType + te))
  , details :=
      { dishes := (loopStateOf api dishString).dishes
      , ingredients := ingredientBreakdownOf (loopStateOf api dishString).all
      , dishCount := some (loopStateOf api dishString).count
      , packagingType := some packagingType } }

/-- Model of calculateFoodEmission: early return on a falsy dish string,
else the main path. -/
def calculateFoodEmission (api : String → Option (List (String × ℚ)))
    (dishString : String) (travelDetails : TravelInput)
    (packagingType : String) : EmissionResult :=
  if dishString = "" then emptyDishResult travelDetails
  else mainResult api dishString travelDetails packagingType

/-- Sum of the percentage fields of the ingredient breakdown. -/
def percentageSum (l : List (String × IngredientDetail)) : ℚ :=
  (l.map (fun p => p.2.percentage)).sum

/-- Oracle of an external recipe lookup that always fails. -/
def apiNone : String → Option (List (String × ℚ)) := fun _ => none

/-- Oracle of an external recipe lookup that succeeds with an empty
ingredient list. -/
def apiEmptySuccess : String → Option (List (String × ℚ)) := fun _ => some []

/-- Oracle of a geocoder that always fails. -/
def geoNone : String → Option Coords := fun _ => none

/-- Oracle of a router that always fails. -/
def routeNone : Coords → Coords → String → Option ℚ := fun _ _ _ => none

/-! ### Helper lemmas -/

/-- Bounds of the half up rounding map used by the formatting model. -/
theorem round_sandwich (x : ℚ) : x - 1/2 < (round x : ℚ) ∧ (round x : ℚ) ≤ x + 1/2 := by
  rw [round_eq]
  constructor
  · have h := Int.sub_one_lt_floor (x + 1/2)
    linarith
  · have h := Int.floor_le (x + 1/2)
    linarith

/-- Two decimal formatting moves a value by at most half a cent. -/
theorem abs_fix2_sub (x : ℚ) : |fix2 x - x| ≤ 1/200 := by
  have h := abs_sub_round (x * 100)
  have heq : fix2 x - x = -((x * 100 - (round (x * 100) : ℚ)) / 100) := by
    unfold fix2; ring
  rw [heq, abs_neg, abs_div]
  have h100 : |(100 : ℚ)| = 100 := by norm_num
  rw [h100]
  linarith

/-- One decimal formatting moves a value by at most one twentieth. -/
theorem abs_fix1_sub (x : ℚ) : |fix1 x - x| ≤ 1/20 := by
  have h := abs_sub_round (x * 10)
  have heq : fix1 x - x = -((x * 10 - (round (x * 10) : ℚ)) / 10) := by
    unfold fix1; ring
  rw [heq, abs_neg, abs_div]
  have h10 : |(10 : ℚ)| = 10 := by norm_num
  rw [h10]
  linarith

/-- Formatting three summands and their sum separately to two decimals
changes the sum by at most one cent. -/
theorem fix2_sum_three (a b c : ℚ) :
    |fix2 (a + b + c) - (fix2 a + fix2 b + fix2 c)| ≤ 1/100 := by
  obtain ⟨hS1, hS2⟩ := round_sandwich ((a + b + c) * 100)
  obtain ⟨hA1, hA2⟩ := round_sandwich (a * 100)
  obtain ⟨hB1, hB2⟩ := round_sandwich (b * 100)
  obtain ⟨hC1, hC2⟩ := round_sandwich (c * 100)
  have hub : ((round ((a + b + c) * 100) - round (a * 100) - round (b * 100)
      - round (c * 100) : ℤ) : ℚ) < 2 := by
    push_cast
    linarith
  have hlb : (-2 : ℚ) < ((round ((a + b + c) * 100) - round (a * 100) - round (b * 100)
      - round (c * 100) : ℤ) : ℚ) := by
    push_cast
    linarith
  have h1 : round ((a + b + c) * 100) - round (a * 100) - round (b * 100)
      - round (c * 100) < 2 := by exact_mod_cast hub
  have h2 : (-2 : ℤ) < round ((a + b + c) * 100) - round (a * 100) - round (b * 100)
      - round (c * 100) := by exact_mod_cast hlb
  have habs : |round ((a + b + c) * 100) - round (a * 100) - round (b * 100)
      - round (c * 100)| ≤ 1 := abs_le.mpr ⟨by omega, by omega⟩
  have heq : fix2 (a + b + c) - (fix2 a + fix2 b + fix2 c)
      = ((round ((a + b + c) * 100) - round (a * 100) - round (b * 100)
          - round (c * 100) : ℤ) : ℚ) / 100 := by
    unfold fix2; push_cast; ring
  rw [heq, abs_div]
  have h100 : |(100 : ℚ)| = 100 := by norm_num
  rw [h100]
  have hc : |((round ((a + b + c) * 100) - round (a * 100) - round (b * 100)
      - round (c * 100) : ℤ) : ℚ)| ≤ 1 := by
    rw [← Int.cast_abs]
    exact_mod_cast habs
  linarith

/-- A property assignment never produces an empty map. -/
theorem setKey_ne_nil (l : List (String × ℚ)) (k : String) (v : ℚ) :
    setKey l k v ≠ [] := by
  cases l with
  | nil => simp [setKey]
  | cons h t =>
    obtain ⟨k0, v0⟩ := h
    simp only [setKey]
    split <;> simp

/-- Folding property assignments over a nonempty accumulator keeps it
nonempty. -/
theorem foldl_setKey_ne_nil (items : List (String × ℚ)) (acc : List (String × ℚ))
    (hacc : acc ≠ []) :
    items.foldl (fun a it => setKey a (normalizeIngredientName it.1) it.2) acc ≠ [] := by
  induction items generalizing acc with
  | nil => simpa
  | cons it rest ih => exact ih _ (setKey_ne_nil _ _ _)

/-- Every branch of the heuristic estimator returns a nonempty map. -/
theorem estimateDishIngredients_ne_nil (dishName : String) :
    estimateDishIngredients dishName ≠ [] := by
  simp only [estimateDishIngredients]
  repeat' split
  all_goals simp

/-- A successful lookup returns a stored value. -/
theorem lookupStr_val_mem {α : Type} :
    ∀ (l : List (String × α)) (key : String) (v : α),
      lookupStr l key = some v → ∃ k0, (k0, v) ∈ l
  | [], key, v, h => by simp [lookupStr] at h
  | (k0, w) :: rest, key, v, h => by
    simp only [lookupStr] at h
    split at h
    · exact ⟨k0, by simp_all⟩
    · obtain ⟨k1, hm⟩ := lookupStr_val_mem rest key v h
      exact ⟨k1, List.mem_cons_of_mem _ hm⟩

/-- Every composition stored in the static recipe table is nonempty. -/
theorem recipe_lookup_ne_nil (dishName : String) (m : List (String × ℚ))
    (h : lookupStr RECIPE_DB dishName = some m) : m ≠ [] := by
  obtain ⟨k0, hm⟩ := lookupStr_val_mem _ _ _ h
  simp only [RECIPE_DB, List.mem_cons, List.mem_singleton] at hm
  rcases hm with h1 | h1 | h1 | h1 | h1 | h1 | h1 | h1 | h1 | h1 | h1 <;> simp_all

/-- The travel factor expression of getTravelDistanceKm is always a
number, because the default transport type is in the table with a
nonzero factor. -/
theorem travelFactorJs_isSome (t : String) : (travelFactorJs t).isSome = true := by
  cases h : lookupStr TRAVEL_EMISSIONS t with
  | none => simp [travelFactorJs, jsOrOpt, h]; rfl
  | some v =>
    by_cases hv : v = 0
    · simp [travelFactorJs, jsOrOpt, h, hv]; rfl
    · simp [travelFactorJs, jsOrOpt, h, hv]

/-- A truthy key of the packaging table is one of its five materials. -/
theorem packaging_keys (t : String)
    (h : (lookupStr PACKAGING_EMISSIONS t).isSome = true) :
    t = "plastic" ∨ t = "paper" ∨ t = "aluminum" ∨ t = "styrofoam" ∨ t = "glass" := by
  by_contra hc
  push_neg at hc
  obtain ⟨h1, h2, h3, h4, h5⟩ := hc
  simp [PACKAGING_EMISSIONS, lookupStr, h1, h2, h3, h4, h5] at h

/-! ### Claims -/

/-- Claim C3, counterexample: a dish absent from the static recipe table
whose external lookup succeeds with an empty ingredient list resolves to
an empty map. -/
theorem c3_counterexample :
    lookupStr RECIPE_DB "pizza" = none ∧ apiEmptySuccess "pizza" = some []
      ∧ resolveDishIngredients apiEmptySuccess "pizza" = [] :=
  ⟨rfl, rfl, rfl⟩

/-- Claim C3 (amended): recipe resolution is a total function and its
result is empty exactly when the dish misses the static recipe table and
the external lookup succeeds with an empty ingredient list; in every
other case, in particular whenever the external lookup fails and the
heuristic estimator answers, the result has at least one entry. -/
theorem c3_resolution_empty_iff (api : String → Option (List (String × ℚ)))
    (dishName : String) :
    resolveDishIngredients api dishName = []
      ↔ lookupStr RECIPE_DB dishName = none ∧ api dishName = some [] := by
  unfold resolveDishIngredients fetchIngredientsFromAPI
  cases hdb : lookupStr RECIPE_DB dishName with
  | some m => simp [recipe_lookup_ne_nil dishName m hdb]
  | none =>
    cases hapi : api dishName with
    | none => simp [estimateDishIngredients_ne_nil dishName]
    | some items =>
      cases items with
      | nil => simp
      | cons it rest =>
        have hne := foldl_setKey_ne_nil rest
          (setKey [] (normalizeIngredientName it.1) it.2) (setKey_ne_nil _ _ _)
        simp only [List.foldl]
        simp [hne]

/-- Claim C4: every degraded case of getTravelDistanceKm returns the
five kilometer default distance, and the emission factor is always a
defined number, so no error reaches the caller. -/
theorem c4_degraded_distance (geocode : String → Option Coords)
    (route : Coords → Coords → String → Option ℚ)
    (originAddress : Option String) (destCoords : Option Coords)
    (transportType : String)
    (h : originAddress = none ∨ originAddress = some "" ∨ destCoords = none
      ∨ (∀ addr, originAddress = some addr →
          getCoordinatesFromAddress geocode addr = none)
      ∨ (∀ addr dest oc, originAddress = some addr → destCoords = some dest →
          getCoordinatesFromAddress geocode addr = some oc →
          route oc dest (routeProfile transportType) = none)) :
    (getTravelDistanceKm geocode route originAddress destCoords transportType).distance = 5
    ∧ (getTravelDistanceKm geocode route originAddress destCoords
        transportType).emissionFactor.isSome = true := by
  cases originAddress with
  | none => exact ⟨rfl, travelFactorJs_isSome _⟩
  | some addr =>
    cases destCoords with
    | none => exact ⟨rfl, travelFactorJs_isSome _⟩
    | some dest =>
      unfold getTravelDistanceKm
      dsimp only
      by_cases ha : addr = ""
      · rw [if_pos ha]
        exact ⟨rfl, travelFactorJs_isSome _⟩
      · rw [if_neg ha]
        rcases h with h | h | h | h | h
        · exact absurd h (by simp)
        · exact absurd h (by simp [ha])
        · exact absurd h (by simp)
        · rw [h addr rfl]
          exact ⟨rfl, travelFactorJs_isSome _⟩
        · cases hoc : getCoordinatesFromAddress geocode addr with
          | none => exact ⟨rfl, travelFactorJs_isSome _⟩
          | some oc =>
            dsimp only
            rw [h addr dest oc rfl rfl hoc]
            exact ⟨rfl, travelFactorJs_isSome _⟩

/-- Claim C4, witness: missing origin address and destination. -/
theorem c4_witness :
    (getTravelDistanceKm geoNone routeNone none none "car").distance = 5
    ∧ (getTravelDistanceKm geoNone routeNone none none "car").emissionFactor.isSome = true :=
  c4_degraded_distance geoNone routeNone none none "car" (Or.inl rfl)

/-- Claim C5: the travel table lists walking with factor zero, yet every
result of getTravelDistanceKm for walking carries the default motorcycle
factor 0.115, because the zero factor is falsy in the JavaScript or
expression; 0.115 differs from the documented walking factor. -/
theorem c5_walking_gets_default_factor :
    lookupStr TRAVEL_EMISSIONS "walking" = some 0.0
    ∧ (getTravelDistanceKm geoNone routeNone none none "walking").emissionFactor = some 0.115
    ∧ (0.115 : ℚ) ≠ 0.0 := by
  refine ⟨rfl, ?_, by norm_num⟩
  show travelFactorJs "walking" = some 0.115
  have h00 : (0.0 : ℚ) = 0 := by norm_num
  simp [travelFactorJs, jsOrOpt, lookupStr, TRAVEL_EMISSIONS, DEFAULT_TRANSPORT, h00]

/-- Claim C6: category resolution equals first match wins evaluation of
the documented ordered predicate list, is never negative, is the factor
used whenever the ingredient misses the emission factor table, a name
containing ghee that matches no earlier meat or seafood keyword resolves
to the dairy factor, and a name matching no predicate resolves to the
vegetables factor. -/
theorem c6_category_resolution (ingredient : String) :
    estimateEmissionCategory ingredient
        = firstMatchD categoryRules (lowerStr ingredient) INGREDIENT_CATEGORY_FALLBACK.vegetables
    ∧ 0 ≤ estimateEmissionCategory ingredient
    ∧ (lookupStr FOOD_EMISSIONS_DB ingredient = none →
        emissionFactorOfIngredient ingredient = estimateEmissionCategory ingredient)
    ∧ (jsIncludes (lowerStr ingredient) "ghee" = true →
        (jsIncludes (lowerStr ingredient) "meat" || jsIncludes (lowerStr ingredient) "beef"
          || jsIncludes (lowerStr ingredient) "lamb" || jsIncludes (lowerStr ingredient) "pork"
          || jsIncludes (lowerStr ingredient) "veal") = false →
        (jsIncludes (lowerStr ingredient) "fish" || jsIncludes (lowerStr ingredient) "prawn"
          || jsIncludes (lowerStr ingredient) "shrimp" || jsIncludes (lowerStr ingredient) "salmon"
          || jsIncludes (lowerStr ingredient) "seafood") = false →
        estimateEmissionCategory ingredient = INGREDIENT_CATEGORY_FALLBACK.dairy) := by
  refine ⟨rfl, ?_, ?_, ?_⟩
  · simp only [estimateEmissionCategory]
    repeat' split
    all_goals norm_num [INGREDIENT_CATEGORY_FALLBACK]
  · intro h
    simp [emissionFactorOfIngredient, jsOrQ, h]
  · intro hg hm hs
    simp only [estimateEmissionCategory, hm, hs, hg]
    simp

/-- Claim C6, witness at the ingredient desi ghee, which is absent from
the emission factor table and matches no meat or seafood keyword. -/
theorem c6_witness :
    estimateEmissionCategory "desi ghee" = INGREDIENT_CATEGORY_FALLBACK.dairy
    ∧ emissionFactorOfIngredient "desi ghee" = estimateEmissionCategory "desi ghee" :=
  ⟨(c6_category_resolution "desi ghee").2.2.2 (by decide) (by decide) (by decide),
   (c6_category_resolution "desi ghee").2.2.1 (by decide)⟩

/-- Claim C7: the example dish string parses to exactly its two order
lines, the example with a malformed clause parses to exactly the valid
line, and in general a malformed clause inserted anywhere in a clause
list is skipped without affecting the valid lines. -/
theorem c7_parsing (pre post : List String) (bad : String)
    (hbad : parseClause bad = none) :
    parseDishes "2 x butter chicken, 1 x naan" = [(2, "butter chicken"), (1, "naan")]
    ∧ parseDishes "abc, 1 x naan" = [(1, "naan")]
    ∧ parseLines (pre ++ bad :: post) = parseLines (pre ++ post) := by
  refine ⟨by decide, by decide, ?_⟩
  simp [parseLines, List.filterMap_append, List.filterMap_cons, hbad]

/-- Claim C7, witness: the malformed clause abc is skipped between two
valid clauses. -/
theorem c7_witness :
    parseDishes "2 x butter chicken, 1 x naan" = [(2, "butter chicken"), (1, "naan")]
    ∧ parseDishes "abc, 1 x naan" = [(1, "naan")]
    ∧ parseLines (["2 x butter chicken"] ++ "abc" :: ["1 x naan"])
        = parseLines (["2 x butter chicken"] ++ ["1 x naan"]) :=
  c7_parsing ["2 x butter chicken"] ["1 x naan"] "abc" (by decide)

/-- Claim C8, counterexample: for the packaging type cardboard, which is
absent from the packaging table, the aggregator applies the legacy flat
constant with no fixed overhead, 0.2 for one dish, while the claimed
formula with default type substitution gives 0.25. -/
theorem c8_counterexample :
    (calculateFoodEmission apiNone "1 x naan" (.num 0) "cardboard").packaging = 0.2
    ∧ packagingEmissionOf 1 "cardboard" = 0.2
    ∧ claimPackagingFormula 1 "cardboard" = 0.25
    ∧ (0.2 : ℚ) ≠ 0.25 := by
  have hcount : (loopStateOf apiNone "1 x naan").count = 1 := by decide
  have hpe : packagingEmissionOf 1 "cardboard" = 0.2 := by
    simp [packagingEmissionOf, lookupStr, PACKAGING_EMISSIONS, PACKAGING_EMISSION_PER_DISH]
  refine ⟨?_, hpe, ?_, by norm_num⟩
  · have hne : ("1 x naan" : String) ≠ "" := by decide
    simp only [calculateFoodEmission, if_neg hne, mainResult, hcount, hpe]
    norm_num [fix2, round_eq]
  · simp [claimPackagingFormula, lookupStr, PACKAGING_EMISSIONS, DEFAULT_PACKAGING]
    try norm_num

/-- Claim C8 (amended): for every dish count and every packaging type
present in the packaging table, the aggregator packaging emission equals
the unit factor of that type, at size large exactly when the dish count
exceeds two and medium otherwise, times the dish count plus the fixed
additional emission 0.05; a type absent from the table instead takes the
legacy flat path of 0.2 per dish with no fixed overhead. -/
theorem c8_packaging_formula (dishCount : Nat) (packagingType : String)
    (h : (lookupStr PACKAGING_EMISSIONS packagingType).isSome = true)
    (hne : packagingType ≠ "") :
    packagingEmissionOf dishCount packagingType = claimPackagingFormula dishCount packagingType := by
  have hkeys := packaging_keys packagingType h
  unfold packagingEmissionOf claimPackagingFormula calculatePackagingEmissions
  rw [if_pos ⟨hne, h⟩]
  rcases hkeys with hk | hk | hk | hk | hk <;> subst hk <;>
    by_cases hn : 2 < dishCount <;>
      simp [hn, lookupStr, PACKAGING_EMISSIONS, jsTruthyNum, DEFAULT_PACKAGING]
  all_goals try norm_num
  all_goals try simp

/-- Claim C8, witness: three dishes of the default plastic type escalate
to the large unit factor. -/
theorem c8_witness :
    packagingEmissionOf 3 "plastic" = claimPackagingFormula 3 "plastic" :=
  c8_packaging_formula 3 "plastic" (by decide) (by decide)

/-- Claim C9, counterexample: the same bare numeric travel input of ten
kilometers yields travel 1.15 with an empty dish string but 1.05 with a
valid dish string, because the two paths use different per km constants. -/
theorem c9_counterexample :
    (calculateFoodEmission apiNone "" (.num 10) "plastic").travel = some 1.15
    ∧ (calculateFoodEmission apiNone "1 x naan" (.num 10) "plastic").travel = some 1.05
    ∧ (1.15 : ℚ) ≠ 1.05 := by
  refine ⟨?_, ?_, by norm_num⟩
  · simp only [calculateFoodEmission, if_pos rfl, emptyDishResult, travelStageEmptyDish,
      lookupStr, TRAVEL_EMISSIONS, DEFAULT_TRANSPORT]
    norm_num [fix2, round_eq]
  · have hne : ("1 x naan" : String) ≠ "" := by decide
    simp only [calculateFoodEmission, if_neg hne, mainResult, travelStage, Option.map_some]
    norm_num [fix2, round_eq, TRAVEL_EMISSION_PER_KM]

/-- Claim C9 (amended): with a bare numeric travel input the travel
emission is dish independent only among nonempty dish strings, where the
legacy constant 0.105 per km applies; the empty dish early return instead
applies the default transport profile factor 0.115 per km. -/
theorem c9_travel_constants (api : String → Option (List (String × ℚ)))
    (s p : String) (d : ℚ) :
    (s ≠ "" → (calculateFoodEmission api s (.num d) p).travel
        = some (fix2 (d * TRAVEL_EMISSION_PER_KM)))
    ∧ (calculateFoodEmission api "" (.num d) p).travel = some (fix2 (d * 0.115)) := by
  constructor
  · intro hs
    simp [calculateFoodEmission, if_neg hs, mainResult, travelStage]
  · simp [calculateFoodEmission, emptyDishResult, travelStageEmptyDish,
      lookupStr, TRAVEL_EMISSIONS, DEFAULT_TRANSPORT]

/-- Claim C9, witness: a nonempty dish string with no valid clause still
takes the legacy travel constant. -/
theorem c9_witness :
    (calculateFoodEmission apiNone "x" (.num 2) "plastic").travel
      = some (fix2 (2 * TRAVEL_EMISSION_PER_KM)) :=
  (c9_travel_constants apiNone "x" "plastic" 2).1 (by decide)

/-- Claim C10: a nonempty dish string with zero valid clauses and a
packaging type present in the packaging table reports packaging 0.05,
the fixed overhead applied to zero dishes, while the empty dish string
early return reports packaging 0.00. -/
theorem c10_zero_dish_packaging (api : String → Option (List (String × ℚ)))
    (tr : TravelInput) (s p : String)
    (hs : s ≠ "") (hparse : parseDishes s = [])
    (hp : (lookupStr PACKAGING_EMISSIONS p).isSome = true) (hpne : p ≠ "") :
    (calculateFoodEmission api s tr p).packaging = 0.05
    ∧ (calculateFoodEmission api "" tr p).packaging = 0 := by
  constructor
  · have hcount : (loopStateOf api s).count = 0 := by
      simp [loopStateOf, hparse, dishLoop]
    simp only [calculateFoodEmission, if_neg hs, mainResult, hcount]
    rw [show packagingEmissionOf 0 p = calculatePackagingEmissions 0 p "medium" from by
      simp [packagingEmissionOf, hpne, hp]]
    simp only [calculatePackagingEmissions, if_pos hp, DEFAULT_PACKAGING]
    rw [ite_self]
    simp only [Nat.cast_zero, mul_zero, zero_add]
    norm_num [fix2, round_eq]
  · simp [calculateFoodEmission, emptyDishResult]

/-- Claim C10, witness at the dish string abc and type plastic. -/
theorem c10_witness :
    (calculateFoodEmission apiNone "abc" (.num 0) "plastic").packaging = 0.05
    ∧ (calculateFoodEmission apiNone "" (.num 0) "plastic").packaging = 0 :=
  c10_zero_dish_packaging apiNone (.num 0) "abc" "plastic" (by decide) (by decide)
    (by decide) (by decide)

/-- Claim C1, counterexample: a structured travel input with an
unrecognized transport type and no emission factor makes the travel and
total fields NaN, modelled by none, so the total cannot be within any
tolerance of the sum of the three component fields. -/
theorem c1_counterexample :
    (calculateFoodEmission apiNone "1 x naan"
        (.obj 5 (some "hoverboard") none) "plastic").travel = none
    ∧ (calculateFoodEmission apiNone "1 x naan"
        (.obj 5 (some "hoverboard") none) "plastic").total = none
    ∧ ¬ ∃ tv tot : ℚ,
        (calculateFoodEmission apiNone "1 x naan"
            (.obj 5 (some "hoverboard") none) "plastic").travel = some tv
        ∧ (calculateFoodEmission apiNone "1 x naan"
            (.obj 5 (some "hoverboard") none) "plastic").total = some tot
        ∧ |tot - ((calculateFoodEmission apiNone "1 x naan"
              (.obj 5 (some "hoverboard") none) "plastic").food
            + (calculateFoodEmission apiNone "1 x naan"
                (.obj 5 (some "hoverboard") none) "plastic").packaging + tv)| ≤ 1/100 := by
  have h5 : (5 : ℚ) ≠ 0 := by norm_num
  have ht : (calculateFoodEmission apiNone "1 x naan"
      (.obj 5 (some "hoverboard") none) "plastic").travel = none := by
    simp [calculateFoodEmission, mainResult, travelStage, jsOrStr, jsOrOpt, lookupStr,
      TRAVEL_EMISSIONS, h5]
  have htot : (calculateFoodEmission apiNone "1 x naan"
      (.obj 5 (some "hoverboard") none) "plastic").total = none := by
    simp [calculateFoodEmission, mainResult, travelStage, jsOrStr, jsOrOpt, lookupStr,
      TRAVEL_EMISSIONS, h5]
  refine ⟨ht, htot, ?_⟩
  rintro ⟨tv, tot, h1, h2, h3⟩
  rw [ht] at h1
  exact Option.noConfusion h1

/-- Claim C1 (amended): whenever the travel emission is a number, which
fails only for a structured travel input carrying no usable emission
factor and an unrecognized transport type, the total field equals the
sum of the food, packaging and travel fields within a tolerance of 0.01
after two decimal formatting. -/
theorem c1_total_breakdown (api : String → Option (List (String × ℚ)))
    (s p : String) (tr : TravelInput) (tv tot : ℚ)
    (h1 : (calculateFoodEmission api s tr p).travel = some tv)
    (h2 : (calculateFoodEmission api s tr p).total = some tot) :
    |tot - ((calculateFoodEmission api s tr p).food
      + (calculateFoodEmission api s tr p).packaging + tv)| ≤ 1/100 := by
  by_cases hs : s = ""
  · subst hs
    simp only [calculateFoodEmission, if_true, emptyDishResult] at h1 h2 ⊢
    rw [h1] at h2
    obtain rfl := (Option.some.injEq _ _).mp h2
    simp
  · simp only [calculateFoodEmission, if_neg hs, mainResult] at h1 h2 ⊢
    obtain ⟨te, hte, htv⟩ := Option.map_eq_some'.mp h1
    rw [hte] at h2
    simp only [Option.map_some', Option.some.injEq] at h2
    subst htv
    rw [← h2]
    exact fix2_sum_three _ _ _

/-- Claim C1, witness: the empty dish early return with one kilometer of
bare numeric travel. -/
theorem c1_witness :
    |(3/25 : ℚ) - ((calculateFoodEmission apiNone "" (.num 1) "plastic").food
      + (calculateFoodEmission apiNone "" (.num 1) "plastic").packaging + 3/25)| ≤ 1/100 :=
  c1_total_breakdown apiNone "" "plastic" (.num 1) (3/25) (3/25)
    (by
      simp [calculateFoodEmission, emptyDishResult, travelStageEmptyDish, lookupStr,
        TRAVEL_EMISSIONS, DEFAULT_TRANSPORT]
      norm_num [fix2, round_eq])
    (by
      simp [calculateFoodEmission, emptyDishResult, travelStageEmptyDish, lookupStr,
        TRAVEL_EMISSIONS, DEFAULT_TRANSPORT]
      norm_num [fix2, round_eq])

/-- One percentage entry differs from its exact value by at most one
twentieth from the one decimal formatting plus the effect of the two
decimal formatting of the numerator. -/
theorem pct_entry_bound (T e : ℚ) (hT : 0 < T) :
    |fix1 (fix2 e / T * 100) - e / T * 100| ≤ 1/20 + 1/(2*T) := by
  have hT' : T ≠ 0 := ne_of_gt hT
  have h1 := abs_fix1_sub (fix2 e / T * 100)
  have h2 := abs_fix2_sub e
  have h3 : |fix2 e / T * 100 - e / T * 100| ≤ 1/(2*T) := by
    have heq : fix2 e / T * 100 - e / T * 100 = (fix2 e - e) * (100 / T) := by ring
    rw [heq, abs_mul]
    have hpos : (0:ℚ) < 100 / T := by positivity
    rw [abs_of_pos hpos]
    have hmul := mul_le_mul_of_nonneg_right h2 (le_of_lt hpos)
    have hval : (1:ℚ)/200 * (100 / T) = 1/(2*T) := by
      field_simp
      ring
    calc |fix2 e - e| * (100 / T) ≤ (1/200) * (100 / T) := hmul
      _ = 1/(2*T) := hval
  calc |fix1 (fix2 e / T * 100) - e / T * 100|
      ≤ |fix1 (fix2 e / T * 100) - fix2 e / T * 100| + |fix2 e / T * 100 - e / T * 100| :=
        abs_sub_le _ _ _
    _ ≤ 1/20 + 1/(2*T) := add_le_add h1 h3

/-- Summing the formatted percentages over any list of emissions differs
from the exact ratio sum by at most the per entry bound times the length. -/
theorem pct_sum_bound (T : ℚ) (hT : 0 < T) :
    ∀ l : List ℚ,
      |(l.map (fun e => fix1 (fix2 e / T * 100))).sum - l.sum / T * 100|
        ≤ (l.length : ℚ) * (1/20 + 1/(2*T))
  | [] => by simp
  | e :: rest => by
    have ih := pct_sum_bound T hT rest
    have hper := pct_entry_bound T e hT
    have habs : |(fix1 (fix2 e / T * 100) - e / T * 100)
        + ((rest.map (fun x => fix1 (fix2 x / T * 100))).sum - rest.sum / T * 100)|
        ≤ (1/20 + 1/(2*T)) + (rest.length : ℚ) * (1/20 + 1/(2*T)) :=
      le_trans (abs_add _ _) (add_le_add hper ih)
    simp only [List.map_cons, List.sum_cons, List.length_cons]
    push_cast
    calc |fix1 (fix2 e / T * 100) + (rest.map (fun x => fix1 (fix2 x / T * 100))).sum
        - (e + rest.sum) / T * 100|
        = |(fix1 (fix2 e / T * 100) - e / T * 100)
          + ((rest.map (fun x => fix1 (fix2 x / T * 100))).sum - rest.sum / T * 100)| := by
          congr 1
          ring
      _ ≤ (1/20 + 1/(2*T)) + (rest.length : ℚ) * (1/20 + 1/(2*T)) := habs
      _ = ((rest.length : ℚ) + 1) * (1/20 + 1/(2*T)) := by ring

/-- Claim C2 (amended): the percentage numerators are the two decimal
formatted emissions over the full precision total, so for a nonempty dish
string with positive total food emission the percentages sum to one
hundred within n times 0.05 plus n times 0.5 over the total, n being the
number of aggregated ingredient entries; the 0.5 tolerance of the claim
does not hold in general. -/
theorem c2_percentage_sum (api : String → Option (List (String × ℚ)))
    (s p : String) (tr : TravelInput)
    (hs : s ≠ "") (hT : 0 < totalIngredientEmission (loopStateOf api s).all) :
    |percentageSum ((calculateFoodEmission api s tr p).details.ingredients) - 100|
      ≤ ((loopStateOf api s).all.length : ℚ) * (1/20)
        + ((loopStateOf api s).all.length : ℚ)
          * (1 / (2 * totalIngredientEmission (loopStateOf api s).all)) := by
  have hing : (calculateFoodEmission api s tr p).details.ingredients
      = ingredientBreakdownOf (loopStateOf api s).all := by
    simp [calculateFoodEmission, if_neg hs, mainResult]
  rw [hing]
  have hsum : percentageSum (ingredientBreakdownOf (loopStateOf api s).all)
      = ((emissionsOf (loopStateOf api s).all).map
          (fun e => fix1 (fix2 e / totalIngredientEmission (loopStateOf api s).all * 100))).sum := by
    simp only [percentageSum, ingredientBreakdownOf, emissionsOf, List.map_map,
      percentageOf, if_pos hT]
    rfl
  rw [hsum]
  have hb := pct_sum_bound (totalIngredientEmission (loopStateOf api s).all) hT
    (emissionsOf (loopStateOf api s).all)
  have hTsum : (emissionsOf (loopStateOf api s).all).sum
      = totalIngredientEmission (loopStateOf api s).all := rfl
  rw [hTsum] at hb
  have h100 : totalIngredientEmission (loopStateOf api s).all
      / totalIngredientEmission (loopStateOf api s).all * 100 = 100 := by
    rw [div_self (ne_of_gt hT)]
    ring
  rw [h100] at hb
  have hlen : ((emissionsOf (loopStateOf api s).all).length : ℚ)
      = ((loopStateOf api s).all.length : ℚ) := by
    simp [emissionsOf]
  rw [hlen] at hb
  calc |((emissionsOf (loopStateOf api s).all).map
        (fun e => fix1 (fix2 e / totalIngredientEmission (loopStateOf api s).all * 100))).sum
        - 100|
      ≤ ((loopStateOf api s).all.length : ℚ)
        * (1/20 + 1/(2 * totalIngredientEmission (loopStateOf api s).all)) := hb
    _ = ((loopStateOf api s).all.length : ℚ) * (1/20)
        + ((loopStateOf api s).all.length : ℚ)
          * (1 / (2 * totalIngredientEmission (loopStateOf api s).all)) := by ring

/-- Claim C2, counterexample: for the order of one naan the percentages
are computed from the two decimal formatted emissions 0.13, 0.05 and
0.12 over the full precision total 0.298, giving 43.6 plus 16.8 plus
40.3 equal to 100.7, outside the claimed tolerance of 100 plus or minus
0.5. -/
theorem c2_counterexample :
    percentageSum ((calculateFoodEmission apiNone "1 x naan"
        (.num 0) "plastic").details.ingredients) = 1007/10
    ∧ ¬ |percentageSum ((calculateFoodEmission apiNone "1 x naan"
          (.num 0) "plastic").details.ingredients) - 100| ≤ 1/2 := by
  have hp : parseDishes "1 x naan" = [(1, "naan")] := by decide
  have hall : (loopStateOf apiNone "1 x naan").all
      = [("flour", 80), ("yogurt", 20), ("butter", 10)] := by
    simp [loopStateOf, hp, dishLoop, dishStep, resolveDishIngredients, lookupStr, RECIPE_DB,
      mergeIngredients, addAmount]
  have hing : (calculateFoodEmission apiNone "1 x naan" (.num 0) "plastic").details.ingredients
      = ingredientBreakdownOf [("flour", 80), ("yogurt", 20), ("butter", 10)] := by
    simp [calculateFoodEmission, mainResult, hall]
  have hfl : emissionFactorOfIngredient "flour" = 1.6 := by
    have h : lookupStr FOOD_EMISSIONS_DB "flour" = some 1.6 := rfl
    simp [emissionFactorOfIngredient, h, jsOrQ]
    norm_num
  have hyo : emissionFactorOfIngredient "yogurt" = 2.5 := by
    have h : lookupStr FOOD_EMISSIONS_DB "yogurt" = some 2.5 := rfl
    simp [emissionFactorOfIngredient, h, jsOrQ]
    norm_num
  have hbu : emissionFactorOfIngredient "butter" = 12.0 := by
    have h : lookupStr FOOD_EMISSIONS_DB "butter" = some 12.0 := rfl
    simp [emissionFactorOfIngredient, h, jsOrQ]
    norm_num
  have hval : percentageSum ((calculateFoodEmission apiNone "1 x naan"
      (.num 0) "plastic").details.ingredients) = 1007/10 := by
    rw [hing]
    simp [ingredientBreakdownOf, percentageSum, percentageOf, totalIngredientEmission,
      emissionsOf, ingredientEmissionOf, hfl, hyo, hbu]
    norm_num [fix1, fix2, round_eq]
  refine ⟨hval, ?_⟩
  rw [hval]
  have habs : |(1007:ℚ)/10 - 100| = 7/10 := by
    rw [show (1007:ℚ)/10 - 100 = 7/10 by norm_num]
    exact abs_of_pos (by norm_num)
  rw [habs]
  norm_num

/-- Claim C2, witness of the amended bound at the order of one naan:
three entries and total 0.298 give a bound of about 5.18, and the sum
100.7 is within it. -/
theorem c2_witness :
    |percentageSum ((calculateFoodEmission apiNone "1 x naan"
        (.num 0) "plastic").details.ingredients) - 100|
      ≤ ((loopStateOf apiNone "1 x naan").all.length : ℚ) * (1/20)
        + ((loopStateOf apiNone "1 x naan").all.length : ℚ)
          * (1 / (2 * totalIngredientEmission (loopStateOf apiNone "1 x naan").all)) :=
  c2_percentage_sum apiNone "1 x naan" "plastic" (.num 0) (by decide)
    (by
      have hp : parseDishes "1 x naan" = [(1, "naan")] := by decide
      have hall : (loopStateOf apiNone "1 x naan").all
          = [("flour", 80), ("yogurt", 20), ("butter", 10)] := by
        simp [loopStateOf, hp, dishLoop, dishStep, resolveDishIngredients, lookupStr, RECIPE_DB,
          mergeIngredients, addAmount]
      rw [hall]
      simp [totalIngredientEmission, emissionsOf, ingredientEmissionOf,
        emissionFactorOfIngredient, lookupStr, FOOD_EMISSIONS_DB, jsOrQ]
      norm_num)
